import Mathlib

/-!
Verification development for the Skill-Sync scraper service
(`scraper_service/app`): a shallow embedding of the record normalizer,
the idempotent storage writer, the webhook notifier and the scrape-task
orchestrator, together with theorems about the claims of the
specification.

Conventions of the embedding:
* Python values relevant to the normalizer are modelled by `RawVal`
  (Python `None`, strings, ints, pandas `NaN`).
* A raw record (`dict`) is an association list; `rawGet` models
  `dict.get` (default `None`).
* Machine time is passed explicitly: `datetime.utcnow()` observations
  become `Int` parameters, nanoseconds since the Unix epoch.
* Fallible operations return `Except String` / `Option`.
-/

namespace SkillSync

/-- A Python value as seen by `_normalize_job_record` / `_as_optional_str`
in `scraper_service/app/scraper_runner.py`: `None`, a `str`, an `int`
(epoch numbers), or a pandas float `NaN` cell. -/
inductive RawVal where
  | pyNone : RawVal
  | str (s : String) : RawVal
  | intVal (n : Int) : RawVal
  | nan : RawVal
deriving DecidableEq, Repr

/-- Python truthiness of a `RawVal`: `None` and `""` are falsy, `0` is
falsy, a float `NaN` is truthy. -/
def pyTruthy : RawVal → Bool
  | .pyNone => false
  | .str s => s ≠ ""
  | .intVal n => n ≠ 0
  | .nan => true

/-- Python `a or b` on raw values (yields `a` when truthy, else `b`). -/
def pyOr (a b : RawVal) : RawVal :=
  if pyTruthy a then a else b

/-- Python `isinstance(v, str)`. -/
def isStrVal : RawVal → Bool
  | .str _ => true
  | _ => false

/-- A raw scraped record: the `dict` produced by
`df.to_dict(orient="records")`, modelled as an association list. -/
abbrev RawRecord := List (String × RawVal)

/-- `raw.get(key)`: first binding of `key`, defaulting to Python `None`. -/
def rawGet (r : RawRecord) (key : String) : RawVal :=
  match r.find? (fun p => p.1 == key) with
  | some p => p.2
  | none => .pyNone

/-- Python `str.strip()`: drop whitespace from both ends (character-list
implementation so that concrete instances reduce in the kernel). -/
def pyStrip (s : String) : String :=
  String.mk (((s.data.dropWhile Char.isWhitespace).reverse.dropWhile Char.isWhitespace).reverse)

/-- `_as_optional_str` (scraper_runner.py lines 31-39): `None` and NaN
become `none`, strings are stripped (empty after strip becomes `none`),
other values are rendered with `str(...)`. -/
def asOptionalStr : RawVal → Option String
  | .pyNone => none
  | .str s => let v := pyStrip s; if v = "" then none else some v
  | .nan => none
  | .intVal n => some (toString n)

/-- Nanoseconds in one civil day. -/
def nsPerDay : Int := 86400000000000

/-- Civil date `(y, m, d)` to days since 1970-01-01 (standard
days-from-civil algorithm, floor division). -/
def daysFromCivil (y m d : Int) : Int :=
  let y1 := if m ≤ 2 then y - 1 else y
  let era := Int.fdiv y1 400
  let yoe := y1 - era * 400
  let m1 := if m > 2 then m - 3 else m + 9
  let doy := Int.fdiv (153 * m1 + 2) 5 + d - 1
  let doe := yoe * 365 + Int.fdiv yoe 4 - Int.fdiv yoe 100 + doy
  era * 146097 + doe - 719468

/-- Date (days since epoch) of a nanosecond timestamp. -/
def tsDate (ns : Int) : Int := Int.fdiv ns nsPerDay

/-- Split a character list on a separator character. -/
def splitChar (c : Char) : List Char → List (List Char)
  | [] => [[]]
  | x :: xs =>
    if x = c then [] :: splitChar c xs
    else
      match splitChar c xs with
      | g :: gs => (x :: g) :: gs
      | [] => [[x]]

/-- Parse a nonempty all-digit character list as a natural number. -/
def charsToNat? (l : List Char) : Option Nat :=
  if l ≠ [] ∧ l.all Char.isDigit then
    some (l.foldl (fun a c => a * 10 + (c.toNat - 48)) 0)
  else none

/-- Parse a `YYYY-MM-DD` ISO-8601 date string. -/
def parseIsoDate (s : String) : Option (Int × Int × Int) :=
  match splitChar '-' s.data with
  | [ys, ms, ds] =>
    match charsToNat? ys, charsToNat? ms, charsToNat? ds with
    | some y, some m, some d =>
      if 1 ≤ m ∧ m ≤ 12 ∧ 1 ≤ d ∧ d ≤ 31 then some ((y : Int), (m : Int), (d : Int))
      else none
    | _, _, _ => none
  | _ => none

/-- Model of `pandas.to_datetime(value, utc=True, errors="coerce")` on the
value shapes reaching it in `_normalize_job_record`, as a nanosecond
timestamp: a numeric input is interpreted with the default unit of
nanoseconds since the epoch (pandas does not disambiguate epoch seconds
from milliseconds by magnitude); an ISO-8601 date string parses to that
date; a float NaN and any string pandas cannot parse (relative phrases
such as "3 days ago" are rejected by the underlying dateutil parser)
coerce to `NaT`, i.e. `none`. -/
def pdToDatetime : RawVal → Option Int
  | .intVal n => some n
  | .str s => (parseIsoDate s).map (fun t => daysFromCivil t.1 t.2.1 t.2.2 * nsPerDay)
  | .pyNone => none
  | .nan => none

/-- The posted-at pipeline of `_normalize_job_record` (scraper_runner.py
lines 47-55): `raw.get("date_posted") or raw.get("posted_at")`, guarded by
`is not None and != ""`, then `pd.to_datetime(..., errors="coerce")`. -/
def parsePostedAt (r : RawRecord) : Option Int :=
  let pv := pyOr (rawGet r "date_posted") (rawGet r "posted_at")
  if pv ≠ RawVal.pyNone ∧ pv ≠ RawVal.str "" then pdToDatetime pv else none

/-- A row of the `jobs` relation (`app/models.py` `Job`), restricted to the
columns the scraper writes; identities are `Nat` stand-ins for UUIDs. -/
structure JobRow where
  id : Nat
  source_id : Nat
  title : Option String
  company : Option String
  location : Option String
  description : Option String
  posted_at : Option Int
  scraped_at : Int
  created_at : Int
  url : Option String
  source : String
  source_url : Option String
  is_active : Bool
deriving DecidableEq, Repr

/-- `_normalize_job_record` (scraper_runner.py lines 42-76). `now` is the
`datetime.utcnow()` observation, `fresh` the generated row identity.
Returns `none` (record discarded) exactly when
`raw.get("job_url") or raw.get("JOB_URL")` is not a truthy string. -/
def normalizeJobRecord (r : RawRecord) (sourceId : Nat) (site : String)
    (now : Int) (fresh : Nat) : Option JobRow :=
  let jobUrl := pyOr (rawGet r "job_url") (rawGet r "JOB_URL")
  if ¬ pyTruthy jobUrl ∨ ¬ isStrVal jobUrl then none
  else
    some
      { id := fresh
        source_id := sourceId
        title := asOptionalStr (pyOr (rawGet r "title") (rawGet r "TITLE"))
        company := asOptionalStr
          (pyOr (pyOr (rawGet r "company") (rawGet r "company_name")) (rawGet r "COMPANY"))
        location := asOptionalStr
          (pyOr (pyOr (rawGet r "location") (rawGet r "CITY")) (rawGet r "LOCATION"))
        description := asOptionalStr (pyOr (rawGet r "description") (rawGet r "DESCRIPTION"))
        posted_at := parsePostedAt r
        scraped_at := now
        created_at := now
        url := asOptionalStr jobUrl
        source := site
        source_url := asOptionalStr jobUrl
        is_active := true }

/-- Structural worker for `chunked`: `cur` is the current chunk being
filled, in reverse. -/
def chunkedGo (size : Nat) : List α → List α → List (List α)
  | [], cur => if cur.isEmpty then [] else [cur.reverse]
  | x :: xs, cur =>
    let cur1 := x :: cur
    if cur1.length = size then cur1.reverse :: chunkedGo size xs []
    else chunkedGo size xs cur1

/-- `_chunked` (scraper_runner.py lines 26-28): fixed-size slices, chunk
size floored at 1. -/
def chunked (items : List α) (chunkSize : Nat) : List (List α) :=
  chunkedGo (max 1 chunkSize) items []

/-- Unique indexes of the `jobs` table as created by
`Base.metadata.create_all` from `app/models.py`: only the primary key on
`id`; the `Job` model declares no unique constraint on
`(source_id, url)`. -/
def modelsJobsUniqueIndexes : List (List String) := [["id"]]

/-- The conflict target of the scraper's insert statement
(scraper_runner.py line 171): `index_elements=[Job.source_id, Job.url]`. -/
def jobsConflictTarget : List String := ["source_id", "url"]

/-- The PostgreSQL error for an `ON CONFLICT` clause whose column list
matches no unique or exclusion constraint of the target table. -/
def pgNoConstraintErr : String :=
  "ProgrammingError 42P10: there is no unique or exclusion constraint matching the ON CONFLICT specification"

/-- Insert one row with `ON CONFLICT (source_id, url) DO NOTHING`
row semantics: a row whose `(source_id, url)` key collides with an
existing row is skipped (SQL `NULL` urls never collide). -/
def insertOrIgnoreRow (table : List JobRow) (row : JobRow) : List JobRow :=
  if table.any (fun r =>
      r.source_id == row.source_id && r.url == row.url && row.url.isSome) then
    table
  else table ++ [row]

/-- One chunk insert (scraper_runner.py lines 170-173):
`pg_insert(Job).values(chunk).on_conflict_do_nothing(index_elements=[Job.source_id, Job.url])`.
PostgreSQL rejects the statement outright (error 42P10) unless the table
has a unique index exactly matching the conflict target; otherwise each
row is inserted or silently ignored on conflict. -/
def pgInsertOnConflictDoNothing (uniqueIndexes : List (List String))
    (target : List String) (table : List JobRow) (chunk : List JobRow) :
    Except String (List JobRow) :=
  if uniqueIndexes.contains target then
    .ok (chunk.foldl insertOrIgnoreRow table)
  else
    .error pgNoConstraintErr

/-- The per-chunk commit loop (scraper_runner.py lines 168-181): chunks
are committed independently, so a failing chunk keeps all previously
committed chunks and reports the error. -/
def insertChunks (uniqueIndexes : List (List String)) :
    List (List JobRow) → List JobRow → List JobRow × Option String
  | [], table => (table, none)
  | c :: cs, table =>
    match pgInsertOnConflictDoNothing uniqueIndexes jobsConflictTarget table c with
    | .error e => (table, some e)
    | .ok table1 => insertChunks uniqueIndexes cs table1

/-- Model of `config.Settings` (`app/config.py` lines 16-27). The class
defines exactly seven attributes. `scraper_runner.py` additionally reads
`SITES_CONCURRENCY` (line 226, 231), `SLOW_SCRAPE_THRESHOLD_SECONDS`
(lines 184, 228) and `DB_INSERT_CHUNK_SIZE` (line 166, via `getattr`
with default 500); these are modelled as `Option Int` where `none` means
the attribute does not exist (plain access raises `AttributeError`,
`getattr` takes its default). -/
structure Settings where
  databaseUrl : String
  maxResultsPerSite : Nat
  scrapeTimeoutSeconds : Nat
  goBackendUrl : String
  internalToken : String
  webhookTimeoutSeconds : Nat
  webhookMaxRetries : Int
  sitesConcurrency : Option Int
  slowScrapeThresholdSeconds : Option Int
  dbInsertChunkSize : Option Int

/-- Any settings object produced by `config.py`: the environment can vary
the seven declared attributes, but `SITES_CONCURRENCY`,
`SLOW_SCRAPE_THRESHOLD_SECONDS` and `DB_INSERT_CHUNK_SIZE` are never
defined by the `Settings` class. -/
def configSettings (dbUrl goUrl token : String)
    (maxResults timeoutS whTimeout : Nat) (whRetries : Int) : Settings :=
  { databaseUrl := dbUrl
    maxResultsPerSite := maxResults
    scrapeTimeoutSeconds := timeoutS
    goBackendUrl := goUrl
    internalToken := token
    webhookTimeoutSeconds := whTimeout
    webhookMaxRetries := whRetries
    sitesConcurrency := none
    slowScrapeThresholdSeconds := none
    dbInsertChunkSize := none }

/-- The CPython message of the attribute error raised at
scraper_runner.py line 226. -/
def attrErrSitesConcurrency : String :=
  "AttributeError: 'Settings' object has no attribute 'SITES_CONCURRENCY'"

/-- The CPython message of the attribute error raised at
scraper_runner.py line 228 / 184. -/
def attrErrSlowThreshold : String :=
  "AttributeError: 'Settings' object has no attribute 'SLOW_SCRAPE_THRESHOLD_SECONDS'"

/-- The process-wide webhook dedup state (`app/services/webhook.py` lines
17-19): the "already sent" and "currently in flight" key sets, guarded by
`_sent_webhooks_lock`. -/
structure WebhookState where
  sent : List String
  inflight : List String
deriving DecidableEq, Repr

/-- Set insertion (Python `set.add`). -/
def setAdd (l : List String) (k : String) : List String :=
  if k ∈ l then l else k :: l

/-- Set removal (Python `set.discard`). -/
def setDiscard (l : List String) (k : String) : List String :=
  l.filter (fun x => x != k)

/-- The result of one `requests.post` call: an HTTP status, or one of the
exception classes the sender distinguishes (`requests.Timeout`,
`requests.ConnectionError`, any other `requests.RequestException`). -/
inductive HttpResult where
  | status (n : Nat)
  | timeoutErr
  | connErr
  | reqExc
deriving DecidableEq, Repr

/-- How one call of `send_scrape_completed_webhook` ended. -/
inductive SendOutcome where
  | sentOk
  | permFail
  | exhausted
  | deduped
  | notConfigured
deriving DecidableEq, Repr

/-- Observable result of one sender call: the dedup state afterwards, the
terminal outcome, and how many HTTP delivery attempts were made. -/
structure SendReport where
  state : WebhookState
  outcome : SendOutcome
  attempts : Nat
deriving DecidableEq, Repr

/-- An attempt result the retry loop continues past: any status `≥ 500`,
or a network-level `requests` exception (webhook.py lines 108-115 and
128-143). -/
def retriableResult : HttpResult → Bool
  | .status n => 500 ≤ n
  | _ => true

/-- A 2xx response (webhook.py line 84). -/
def successStatus : HttpResult → Bool
  | .status n => 200 ≤ n && n < 300
  | _ => false

/-- A status the sender treats as permanent failure: not 2xx and not
`≥ 500`, covering the dedicated 400/401/403 branch (webhook.py line 96)
and the any-other-status branch (line 116). -/
def permanentStatus : HttpResult → Bool
  | .status n => !(200 ≤ n && n < 300) && n < 500
  | _ => false

/-- The retry loop of `send_scrape_completed_webhook` (webhook.py lines
65-158): attempts are numbered `1..maxRetries`; `resp i` is what the
`i`-th `requests.post` produces. A 2xx marks the key sent and clears
in-flight; 400/401/403 and every other non-5xx status clear in-flight and
stop; a `≥ 500` status and the `requests` exception classes fall through
to the next attempt; after the loop the in-flight marker is cleared and
failure is permanent (backoff sleeps are not modelled). -/
def webhookLoop (resp : Nat → HttpResult) (key : String) (maxRetries : Nat)
    (st : WebhookState) (attempt : Nat) : SendReport :=
  if _h : maxRetries < attempt then
    ⟨⟨st.sent, setDiscard st.inflight key⟩, .exhausted, maxRetries⟩
  else
    match resp attempt with
    | .status n =>
      if 200 ≤ n ∧ n < 300 then
        ⟨⟨setAdd st.sent key, setDiscard st.inflight key⟩, .sentOk, attempt⟩
      else if n = 400 ∨ n = 401 ∨ n = 403 then
        ⟨⟨st.sent, setDiscard st.inflight key⟩, .permFail, attempt⟩
      else if 500 ≤ n then
        webhookLoop resp key maxRetries st (attempt + 1)
      else
        ⟨⟨st.sent, setDiscard st.inflight key⟩, .permFail, attempt⟩
    | _ => webhookLoop resp key maxRetries st (attempt + 1)
termination_by maxRetries + 1 - attempt
decreasing_by all_goals omega

/-- The webhook dedup key (webhook.py line 37): `f"{task_id}:{source}"`. -/
def webhookKey (taskId source : String) : String :=
  taskId ++ ":" ++ source

/-- `send_scrape_completed_webhook` (webhook.py lines 22-158): missing
endpoint or shared secret is an immediate permanent failure with no
attempt and no dedup mutation; a key already sent or in flight is dropped
under the lock; otherwise the key is marked in flight and the retry loop
runs with `max(1, WEBHOOK_MAX_RETRIES)` attempts. -/
def sendScrapeCompletedWebhook (s : Settings) (taskId source : String)
    (resp : Nat → HttpResult) (st : WebhookState) : SendReport :=
  if s.goBackendUrl = "" then ⟨st, .notConfigured, 0⟩
  else if s.internalToken = "" then ⟨st, .notConfigured, 0⟩
  else
    let key := webhookKey taskId source
    if key ∈ st.sent then ⟨st, .deduped, 0⟩
    else if key ∈ st.inflight then ⟨st, .deduped, 0⟩
    else
      webhookLoop resp key (max 1 s.webhookMaxRetries).toNat
        ⟨st.sent, setAdd st.inflight key⟩ 1

/-- Events on the shared dedup state, at the granularity at which
`_sent_webhooks_lock` serialises them: `req k` is the locked
check-and-mark section of a send call (webhook.py lines 39-44);
`finishOk k` is the locked success section (lines 91-93); `finishFail k`
is the locked clear-in-flight section of a permanent failure or an
exhausted budget (lines 104-105, 124-125, 157-158). -/
inductive WhEvent where
  | req (k : String)
  | finishOk (k : String)
  | finishFail (k : String)
deriving DecidableEq, Repr

/-- The key an event concerns. -/
def whEventKey : WhEvent → String
  | .req k => k
  | .finishOk k => k
  | .finishFail k => k

/-- One lock-serialised step on the dedup state. The returned flag says
whether this event started a delivery attempt sequence (a `req` that
found its key in neither set). `finishOk` / `finishFail` only arise from
a sequence in flight, so they require the key to be in flight. -/
def whStep (st : WebhookState) : WhEvent → Option (WebhookState × Bool)
  | .req k =>
    if k ∈ st.sent then some (st, false)
    else if k ∈ st.inflight then some (st, false)
    else some (⟨st.sent, setAdd st.inflight k⟩, true)
  | .finishOk k =>
    if k ∈ st.inflight then
      some (⟨setAdd st.sent k, setDiscard st.inflight k⟩, false)
    else none
  | .finishFail k =>
    if k ∈ st.inflight then
      some (⟨st.sent, setDiscard st.inflight k⟩, false)
    else none

/-- Run a lock-serialised event sequence, collecting the keys of the
delivery attempt sequences that were started. -/
def whRun (st : WebhookState) : List WhEvent → Option (WebhookState × List String)
  | [] => some (st, [])
  | e :: es =>
    (whStep st e).bind fun p =>
      (whRun p.1 es).map fun q => (q.1, (if p.2 then [whEventKey e] else []) ++ q.2)

/-- How one adapter call (`_scrape_one_site` under `asyncio.wait_for`,
scraper_runner.py lines 123-133) concludes: a timeout, an adapter
exception, or a dataframe of raw records. -/
inductive AdapterOutcome where
  | timeout
  | raiseErr (msg : String)
  | frame (records : List RawRecord)
deriving Repr

/-- `_get_source_id` (scraper_runner.py lines 93-100): resolve a site name
against the seeded `job_sources` rows (`name` is unique). -/
def lookupSource (sources : List (String × Nat)) (site : String) : Option Nat :=
  (sources.find? (fun p => p.1 == site)).map (fun p => p.2)

/-- The observable effects of one source unit. -/
structure UnitResult where
  jobs : List JobRow
  triggers : Nat
  res : Except String Nat
deriving Repr

/-- `_scrape_site_and_store` (scraper_runner.py lines 103-204). `triggers`
counts calls of `trigger_scrape_completed_webhook` for this `(task,
site)`. An unresolved source, a timeout, an adapter exception and an
empty frame each trigger the webhook and return 0. Otherwise records are
normalized (row identities are the record indexes), nonempty rows are
chunk-inserted; a chunk error escapes the function before the line-202
trigger, keeping previously committed chunks; the slow-scrape log line
then reads `settings.SLOW_SCRAPE_THRESHOLD_SECONDS`, which raises
`AttributeError` when the attribute is missing, likewise before the
trigger. -/
def scrapeSiteAndStore (uniqueIndexes : List (List String))
    (sources : List (String × Nat)) (slowThreshold : Option Int)
    (chunkSizeAttr : Option Int) (site : String) (adapter : AdapterOutcome)
    (now : Int) (jobs : List JobRow) : UnitResult :=
  match lookupSource sources site with
  | none => ⟨jobs, 1, .ok 0⟩
  | some sourceId =>
    match adapter with
    | .timeout => ⟨jobs, 1, .ok 0⟩
    | .raiseErr _ => ⟨jobs, 1, .ok 0⟩
    | .frame records =>
      if records.length = 0 then ⟨jobs, 1, .ok 0⟩
      else
        let rows := records.enum.filterMap
          (fun p => normalizeJobRecord p.2 sourceId site now p.1)
        let rawChunk := chunkSizeAttr.getD 500
        let chunkSize := if rawChunk = 0 then (500 : Int) else rawChunk
        let afterInsert :=
          if rows.isEmpty then (jobs, none)
          else insertChunks uniqueIndexes (chunked rows chunkSize.toNat) jobs
        match afterInsert with
        | (jobs1, some e) => ⟨jobs1, 0, .error e⟩
        | (jobs1, none) =>
          match slowThreshold with
          | none => ⟨jobs1, 0, .error attrErrSlowThreshold⟩
          | some _ => ⟨jobs1, 1, .ok records.length⟩

/-- A row of `scrape_tasks` (`app/models.py` `ScrapeTask`). -/
structure TaskRow where
  id : Nat
  query : String
  location : String
  status : String
  totalFound : Option Nat
  errorMessage : Option String
  createdAt : Int
  updatedAt : Int
deriving DecidableEq, Repr

/-- `create_scrape` (`app/api/routes_scrape.py` lines 17-25): the intake
boundary creates the task with status `pending`; `created_at` and
`updated_at` default to the creation time. -/
def createScrapeTask (id : Nat) (query location : String) (t0 : Int) : TaskRow :=
  { id := id, query := query, location := location, status := "pending"
    totalFound := none, errorMessage := none, createdAt := t0, updatedAt := t0 }

/-- The configured source-name list (scraper_runner.py line 21). -/
def SITES : List String := ["indeed", "linkedin", "glassdoor", "google", "glints"]

/-- The observable effects of one `run_scrape_task` call: the final task
row, the task-row writes it issued in order, how many adapter calls were
made, how many webhook triggers fired, and the jobs table afterwards. -/
structure RunResult where
  task : TaskRow
  writes : List TaskRow
  adapterCalls : Nat
  triggers : Nat
  jobs : List JobRow
deriving Repr

/-- Accumulator of the per-site fan-out. -/
structure FanoutAcc where
  jobs : List JobRow
  total : Nat
  adapterCalls : Nat
  triggers : Nat

/-- The bounded fan-out of scraper_runner.py lines 231-252, linearised:
`asyncio.gather(..., return_exceptions=True)` collects every unit's
result; a unit that raised is logged and skipped (contributes zero),
a unit that returned adds its count. The adapter is invoked exactly for
units whose source name resolved. -/
def runUnits (uniqueIndexes : List (List String)) (sources : List (String × Nat))
    (slowThreshold : Option Int) (chunkSizeAttr : Option Int)
    (adapters : String → AdapterOutcome) (now : Int) (jobs : List JobRow) :
    FanoutAcc :=
  SITES.foldl
    (fun acc site =>
      let u := scrapeSiteAndStore uniqueIndexes sources slowThreshold
        chunkSizeAttr site (adapters site) now acc.jobs
      { jobs := u.jobs
        total := acc.total + (match u.res with | .ok n => n | .error _ => 0)
        adapterCalls := acc.adapterCalls +
          (if (lookupSource sources site).isSome then 1 else 0)
        triggers := acc.triggers + u.triggers })
    ⟨jobs, 0, 0, 0⟩

/-- `run_scrape_task` (scraper_runner.py lines 207-289). The task is first
moved to `running` (updated_at refreshed, error cleared). Inside the
`try` block the start log line evaluates `settings.SITES_CONCURRENCY`
and `settings.SLOW_SCRAPE_THRESHOLD_SECONDS` (lines 226-228) before the
semaphore is built; a missing attribute raises `AttributeError`, landing
in the `except` branch that marks the task `failed` with the error
message. Otherwise the bounded fan-out runs and the task is marked
`completed` with the summed `total_found`. `n1` and `n2` are the
`datetime.utcnow()` observations of the two transitions. -/
def runScrapeTask (s : Settings) (uniqueIndexes : List (List String))
    (sources : List (String × Nat)) (adapters : String → AdapterOutcome)
    (n1 n2 : Int) (task : TaskRow) (jobs : List JobRow) : RunResult :=
  let t1 : TaskRow := { task with status := "running", updatedAt := n1, errorMessage := none }
  match s.sitesConcurrency with
  | none =>
    let t2 : TaskRow :=
      { t1 with status := "failed", errorMessage := some attrErrSitesConcurrency, updatedAt := n2 }
    ⟨t2, [t1, t2], 0, 0, jobs⟩
  | some _ =>
    match s.slowScrapeThresholdSeconds with
    | none =>
      let t2 : TaskRow :=
        { t1 with status := "failed", errorMessage := some attrErrSlowThreshold, updatedAt := n2 }
      ⟨t2, [t1, t2], 0, 0, jobs⟩
    | some th =>
      let acc := runUnits uniqueIndexes sources (some th) s.dbInsertChunkSize adapters n1 jobs
      let t2 : TaskRow :=
        { t1 with status := "completed", totalFound := some acc.total, updatedAt := n2 }
      ⟨t2, [t1, t2], acc.adapterCalls, acc.triggers, acc.jobs⟩

/-- The status/updated_at history of one task as observable through the
intake boundary and the orchestrator: the created row followed by every
row state the orchestrator wrote. -/
def taskTrace (created : TaskRow) (r : RunResult) : List (String × Int) :=
  (created.status, created.updatedAt) :: r.writes.map (fun w => (w.status, w.updatedAt))

/-! ## Theorems about the claims -/

/-- C1. The claim says a failure inside one source's unit can never
prevent the task from reaching `completed`, and in particular a task with
zero results from every source ends `completed` with total_found = 0.
The code contradicts this: `config.Settings` defines no
`SITES_CONCURRENCY` attribute, `run_scrape_task` reads it (line 226)
inside its `try` block before any source unit runs, and the resulting
`AttributeError` lands in the orchestration `except` branch — so every
task run under the shipped configuration ends `failed` with the attribute
error as its error message and total_found never set. -/
theorem runScrapeTask_shipped_config_always_fails
    (dbUrl goUrl token : String) (mr ts wt : Nat) (wr : Int)
    (uIdx : List (List String)) (sources : List (String × Nat))
    (adapters : String → AdapterOutcome) (n1 n2 t0 : Int) (id : Nat)
    (q l : String) (jobs : List JobRow) :
    (runScrapeTask (configSettings dbUrl goUrl token mr ts wt wr) uIdx sources
        adapters n1 n2 (createScrapeTask id q l t0) jobs).task.status = "failed"
    ∧ (runScrapeTask (configSettings dbUrl goUrl token mr ts wt wr) uIdx sources
        adapters n1 n2 (createScrapeTask id q l t0) jobs).task.totalFound = none
    ∧ (runScrapeTask (configSettings dbUrl goUrl token mr ts wt wr) uIdx sources
        adapters n1 n2 (createScrapeTask id q l t0) jobs).task.errorMessage
        = some attrErrSitesConcurrency :=
  ⟨rfl, rfl, rfl⟩

/-- C10. The claim says a configured concurrency cap C bounds simultaneous
adapter calls. In the code the cap cannot take effect: `Settings` has no
`SITES_CONCURRENCY` attribute, so `run_scrape_task` raises
`AttributeError` before the semaphore is even constructed — under the
shipped configuration no adapter call is ever made and every task fails. -/
theorem runScrapeTask_shipped_config_no_adapter_calls
    (dbUrl goUrl token : String) (mr ts wt : Nat) (wr : Int)
    (uIdx : List (List String)) (sources : List (String × Nat))
    (adapters : String → AdapterOutcome) (n1 n2 : Int) (task : TaskRow)
    (jobs : List JobRow) :
    (runScrapeTask (configSettings dbUrl goUrl token mr ts wt wr) uIdx sources
        adapters n1 n2 task jobs).adapterCalls = 0
    ∧ (runScrapeTask (configSettings dbUrl goUrl token mr ts wt wr) uIdx sources
        adapters n1 n2 task jobs).task.status = "failed" :=
  ⟨rfl, rfl⟩

/-- C3. The claim says the storage write is an idempotent insert-or-ignore
keyed on (source identity, canonical URL). The code contradicts this:
the insert uses `ON CONFLICT (source_id, url) DO NOTHING`, but the `jobs`
table created from `app/models.py` has no unique index on those columns
(only the primary key), so PostgreSQL rejects every such insert statement
with error 42P10 — the write crashes instead of ignoring duplicates,
whatever the batch contents. -/
theorem jobs_insert_on_conflict_rejected (table chunk : List JobRow) :
    pgInsertOnConflictDoNothing modelsJobsUniqueIndexes jobsConflictTarget table chunk
      = Except.error pgNoConstraintErr :=
  rfl

/-- C9. A sender call with the endpoint or the shared secret unconfigured
returns immediately as a permanent failure: zero delivery attempts and
the dedup state unchanged (webhook.py lines 22-35 return before the lock
section is reached). -/
theorem sendWebhook_unconfigured_noop (s : Settings) (taskId source : String)
    (resp : Nat → HttpResult) (st : WebhookState)
    (h : s.goBackendUrl = "" ∨ s.internalToken = "") :
    sendScrapeCompletedWebhook s taskId source resp st
      = ⟨st, .notConfigured, 0⟩ := by
  rcases h with h | h
  · simp [sendScrapeCompletedWebhook, h]
  · by_cases hg : s.goBackendUrl = "" <;>
      simp [sendScrapeCompletedWebhook, hg, h]

/-- Witness for C9 at a concrete unconfigured settings object. -/
theorem sendWebhook_unconfigured_noop_witness :
    sendScrapeCompletedWebhook (configSettings "" "" "" 50 120 5 5) "t1" "indeed"
        (fun _ => HttpResult.status 200) ⟨[], []⟩
      = ⟨⟨[], []⟩, .notConfigured, 0⟩ :=
  sendWebhook_unconfigured_noop _ _ _ _ _ (Or.inl rfl)

/-- C7 counterexample. The claim says the relative phrase "3 days ago"
evaluated at time T yields the date T minus 3 days. The code feeds the
string to `pd.to_datetime(..., errors="coerce")`, which cannot parse
relative phrases and coerces to `NaT`: at T = 1700000000000000000 ns the
parsed posted-at is `none`, not the date three days before T. -/
theorem parsePostedAt_relative_phrase_counterexample :
    parsePostedAt [("date_posted", RawVal.str "3 days ago")] = none
    ∧ (parsePostedAt [("date_posted", RawVal.str "3 days ago")]).map tsDate
      ≠ some (tsDate (1700000000000000000 - 3 * nsPerDay)) := by
  constructor
  · rfl
  · decide

/-- C7 as it holds on the code. Posted-at parsing never discards a record:
a relative phrase such as "3 days ago" fails closed to null; an epoch
number is interpreted with pandas' default unit of nanoseconds (so
1700000000000 and 1700000000 both land on the epoch day 1970-01-01
rather than being disambiguated by magnitude into 2023-11-14); an
ISO-8601 date yields its date; an absent, empty, NaN or unparseable
value yields null; and whether a record is discarded depends only on its
job-url, never on posted-at. -/
theorem parsePostedAt_amended
    (r : RawRecord) (sid : Nat) (site : String) (now : Int) (fresh : Nat) :
    (rawGet r "date_posted" = RawVal.str "3 days ago" → parsePostedAt r = none)
    ∧ (parsePostedAt [("date_posted", RawVal.intVal 1700000000000)]).map tsDate = some 0
    ∧ (parsePostedAt [("date_posted", RawVal.intVal 1700000000)]).map tsDate = some 0
    ∧ (parsePostedAt [("date_posted", RawVal.str "2023-11-14")]).map tsDate
        = some (daysFromCivil 2023 11 14)
    ∧ parsePostedAt [] = none
    ∧ parsePostedAt [("date_posted", RawVal.str "")] = none
    ∧ parsePostedAt [("date_posted", RawVal.nan)] = none
    ∧ parsePostedAt [("date_posted", RawVal.str "not a date")] = none
    ∧ (normalizeJobRecord r sid site now fresh).isSome
        = (pyTruthy (pyOr (rawGet r "job_url") (rawGet r "JOB_URL"))
           && isStrVal (pyOr (rawGet r "job_url") (rawGet r "JOB_URL"))) := by
  refine ⟨?_, by decide, by decide, by decide, rfl, rfl, rfl, by decide, ?_⟩
  · intro h
    simp only [parsePostedAt, h]
    have htr : pyOr (RawVal.str "3 days ago") (rawGet r "posted_at")
        = RawVal.str "3 days ago" := by
      simp [pyOr, pyTruthy]
    rw [htr]
    decide
  · simp only [normalizeJobRecord]
    by_cases h : ¬ pyTruthy (pyOr (rawGet r "job_url") (rawGet r "JOB_URL")) = true
      ∨ ¬ isStrVal (pyOr (rawGet r "job_url") (rawGet r "JOB_URL")) = true
    · rw [if_pos h]
      rcases h with h | h <;> simp [h]
    · rw [if_neg h]
      push_neg at h
      simp [h.1, h.2]

/-- Witness for C7 at concrete records. -/
theorem parsePostedAt_amended_witness :
    parsePostedAt [("date_posted", RawVal.str "3 days ago")] = none
    ∧ (normalizeJobRecord [("job_url", RawVal.str "http://a"),
        ("date_posted", RawVal.str "garbage")] 1 "indeed" 0 0).isSome = true :=
  ⟨(parsePostedAt_amended [("date_posted", RawVal.str "3 days ago")] 1 "indeed" 0 0).1 rfl,
   ((parsePostedAt_amended [("job_url", RawVal.str "http://a"),
        ("date_posted", RawVal.str "garbage")] 1 "indeed" 0 0).2.2.2.2.2.2.2.2).trans
     (by decide)⟩

/-- C8 counterexample. The claim says every record the normalizer emits
carries a non-null canonical URL. A record whose job_url is the
whitespace string "   " passes the truthy-string guard (it is a nonempty
string) but `_as_optional_str` strips it to empty and stores `url =
None`: the record is emitted with a null canonical URL. -/
theorem normalizeJobRecord_whitespace_url_counterexample :
    (normalizeJobRecord [("job_url", RawVal.str "   ")] 1 "indeed" 0 0).map
        (fun j => j.url) = some none := by
  decide

/-- C8 as it holds on the code. The normalizer discards exactly the
records whose `job_url`-or-`JOB_URL` value is not a truthy string, and an
emitted record's url is the stripped job-url string — which is null
precisely when the job-url is whitespace-only, so a non-null dedup key is
not guaranteed. -/
theorem normalizeJobRecord_url_amended
    (r : RawRecord) (sid : Nat) (site : String) (now : Int) (fresh : Nat) :
    (normalizeJobRecord r sid site now fresh = none
      ↔ ¬ (pyTruthy (pyOr (rawGet r "job_url") (rawGet r "JOB_URL")) = true
           ∧ isStrVal (pyOr (rawGet r "job_url") (rawGet r "JOB_URL")) = true))
    ∧ (∀ row, normalizeJobRecord r sid site now fresh = some row →
        row.url = asOptionalStr (pyOr (rawGet r "job_url") (rawGet r "JOB_URL")))
    ∧ (∀ row s0, normalizeJobRecord r sid site now fresh = some row →
        pyOr (rawGet r "job_url") (rawGet r "JOB_URL") = RawVal.str s0 →
        (row.url = none ↔ pyStrip s0 = "")) := by
  simp only [normalizeJobRecord]
  by_cases h : ¬ pyTruthy (pyOr (rawGet r "job_url") (rawGet r "JOB_URL")) = true
    ∨ ¬ isStrVal (pyOr (rawGet r "job_url") (rawGet r "JOB_URL")) = true
  · rw [if_pos h]
    refine ⟨by tauto, by simp, by simp⟩
  · rw [if_neg h]
    push_neg at h
    refine ⟨by simp [h.1, h.2], ?_, ?_⟩
    · intro row hrow
      cases hrow
      rfl
    · intro row s0 hrow hs
      cases hrow
      simp only [hs, asOptionalStr]
      constructor
      · intro hu
        by_cases he : pyStrip s0 = ""
        · exact he
        · simp [he] at hu
      · intro he
        simp [he]

/-- Witness for C8 at concrete records: a record with no job_url at all is
discarded, and an emitted record's url is the stripped job-url. -/
theorem normalizeJobRecord_url_amended_witness :
    normalizeJobRecord [("title", RawVal.str "Dev")] 1 "indeed" 0 0 = none
    ∧ (normalizeJobRecord [("job_url", RawVal.str "  u  ")] 2 "indeed" 0 0).map
        (fun j => j.url) = some (some "u") := by
  refine ⟨(normalizeJobRecord_url_amended [("title", RawVal.str "Dev")] 1 "indeed" 0 0).1.mpr
    (by decide), ?_⟩
  cases hn : normalizeJobRecord [("job_url", RawVal.str "  u  ")] 2 "indeed" 0 0 with
  | none => exact absurd hn (by decide)
  | some row =>
    have hu := (normalizeJobRecord_url_amended
      [("job_url", RawVal.str "  u  ")] 2 "indeed" 0 0).2.1 row hn
    simp only [Option.map_some']
    rw [hu]
    decide

/-- C2. For every task created by the intake boundary and driven once by
the orchestrator, the observable status history is exactly
`pending → running → completed` or `pending → running → failed`; the run
issues no further writes after the terminal one, and updated_at strictly
increases across the transitions whenever the clock observations do
(utcnow at creation, at the running write, and at the terminal write). -/
theorem taskTrace_status_transitions (s : Settings) (uIdx : List (List String))
    (sources : List (String × Nat)) (adapters : String → AdapterOutcome)
    (id : Nat) (q l : String) (t0 n1 n2 : Int) (jobs : List JobRow)
    (h01 : t0 < n1) (h12 : n1 < n2) :
    ((taskTrace (createScrapeTask id q l t0)
        (runScrapeTask s uIdx sources adapters n1 n2 (createScrapeTask id q l t0) jobs)).map
          Prod.fst = ["pending", "running", "completed"]
     ∨ (taskTrace (createScrapeTask id q l t0)
        (runScrapeTask s uIdx sources adapters n1 n2 (createScrapeTask id q l t0) jobs)).map
          Prod.fst = ["pending", "running", "failed"])
    ∧ List.Chain' (· < ·)
        ((taskTrace (createScrapeTask id q l t0)
          (runScrapeTask s uIdx sources adapters n1 n2 (createScrapeTask id q l t0) jobs)).map
            Prod.snd) := by
  cases hsc : s.sitesConcurrency with
  | none =>
    simp [taskTrace, runScrapeTask, createScrapeTask, hsc, List.chain'_cons, h01, h12]
  | some c =>
    cases hst : s.slowScrapeThresholdSeconds with
    | none =>
      simp [taskTrace, runScrapeTask, createScrapeTask, hsc, hst, List.chain'_cons, h01, h12]
    | some th =>
      simp [taskTrace, runScrapeTask, createScrapeTask, hsc, hst, List.chain'_cons, h01, h12]

/-- Witness for C2 at a concrete run under the shipped settings. -/
theorem taskTrace_status_transitions_witness :
    ((taskTrace (createScrapeTask 7 "python" "Jakarta" 0)
        (runScrapeTask (configSettings "" "" "" 50 120 5 5) modelsJobsUniqueIndexes
          [("indeed", 1)] (fun _ => AdapterOutcome.timeout) 1 2
          (createScrapeTask 7 "python" "Jakarta" 0) [])).map
            Prod.fst = ["pending", "running", "completed"]
     ∨ (taskTrace (createScrapeTask 7 "python" "Jakarta" 0)
        (runScrapeTask (configSettings "" "" "" 50 120 5 5) modelsJobsUniqueIndexes
          [("indeed", 1)] (fun _ => AdapterOutcome.timeout) 1 2
          (createScrapeTask 7 "python" "Jakarta" 0) [])).map
            Prod.fst = ["pending", "running", "failed"])
    ∧ List.Chain' (· < ·)
        ((taskTrace (createScrapeTask 7 "python" "Jakarta" 0)
          (runScrapeTask (configSettings "" "" "" 50 120 5 5) modelsJobsUniqueIndexes
            [("indeed", 1)] (fun _ => AdapterOutcome.timeout) 1 2
            (createScrapeTask 7 "python" "Jakarta" 0) [])).map
              Prod.snd) :=
  taskTrace_status_transitions (configSettings "" "" "" 50 120 5 5) modelsJobsUniqueIndexes
    [("indeed", 1)] (fun _ => AdapterOutcome.timeout) 7 "python" "Jakarta" 0 1 2 []
    (by decide) (by decide)

/-- C6 counterexample. The claim says the webhook is triggered exactly
once for every outcome of the unit, including storage failure. In the
code the trigger at scraper_runner.py line 202 is only reached when the
storage section returns: with the shipped schema (no unique index on
(source_id, url)) the chunk insert raises, the exception escapes the unit
before the trigger, and zero webhooks fire for that source. -/
theorem scrapeSiteAndStore_storage_failure_no_webhook_counterexample :
    (scrapeSiteAndStore modelsJobsUniqueIndexes [("indeed", 1)] (some 30) none "indeed"
        (.frame [[("job_url", RawVal.str "http://x")]]) 0 []).triggers = 0
    ∧ (scrapeSiteAndStore modelsJobsUniqueIndexes [("indeed", 1)] (some 30) none "indeed"
        (.frame [[("job_url", RawVal.str "http://x")]]) 0 []).res
        = Except.error pgNoConstraintErr :=
  ⟨rfl, rfl⟩

/-- C6 as it holds on the code. The unit triggers its webhook exactly once
when the source is unresolved, when the adapter times out or raises, when
the frame is empty, and in general whenever the unit returns normally;
but when the unit escapes with an exception (a storage failure, or the
missing slow-threshold attribute) the webhook is not triggered at all. -/
theorem scrapeSiteAndStore_webhook_amended (uIdx : List (List String))
    (sources : List (String × Nat)) (slow chunkAttr : Option Int)
    (site : String) (adapter : AdapterOutcome) (now : Int) (jobs : List JobRow) :
    (lookupSource sources site = none →
      scrapeSiteAndStore uIdx sources slow chunkAttr site adapter now jobs
        = ⟨jobs, 1, .ok 0⟩)
    ∧ (adapter = .timeout → (scrapeSiteAndStore uIdx sources slow chunkAttr site
        adapter now jobs).triggers = 1)
    ∧ (∀ msg, adapter = .raiseErr msg → (scrapeSiteAndStore uIdx sources slow chunkAttr
        site adapter now jobs).triggers = 1)
    ∧ (adapter = .frame [] → (scrapeSiteAndStore uIdx sources slow chunkAttr site
        adapter now jobs).triggers = 1)
    ∧ (∀ n, (scrapeSiteAndStore uIdx sources slow chunkAttr site adapter now jobs).res
        = .ok n →
        (scrapeSiteAndStore uIdx sources slow chunkAttr site adapter now jobs).triggers = 1)
    ∧ (∀ e, (scrapeSiteAndStore uIdx sources slow chunkAttr site adapter now jobs).res
        = .error e →
        (scrapeSiteAndStore uIdx sources slow chunkAttr site adapter now jobs).triggers = 0) := by
  cases hl : lookupSource sources site with
  | none =>
    refine ⟨fun _ => by simp [scrapeSiteAndStore, hl], ?_, ?_, ?_, ?_, ?_⟩ <;>
      intros <;> simp_all [scrapeSiteAndStore, hl]
  | some sid =>
    refine ⟨fun h => absurd h (by simp [hl]), ?_, ?_, ?_, ?_, ?_⟩
    · intro h
      simp [scrapeSiteAndStore, hl, h]
    · intro msg h
      simp [scrapeSiteAndStore, hl, h]
    · intro h
      simp [scrapeSiteAndStore, hl, h]
    · intro n
      cases adapter with
      | timeout => intro _; simp [scrapeSiteAndStore, hl]
      | raiseErr m => intro _; simp [scrapeSiteAndStore, hl]
      | frame records =>
        simp only [scrapeSiteAndStore, hl]
        split
        · intro _; rfl
        · split
          · intro h; exact absurd h (by simp)
          · split
            · intro h; exact absurd h (by simp)
            · intro _; rfl
    · intro e
      cases adapter with
      | timeout => intro h; exact absurd h (by simp [scrapeSiteAndStore, hl])
      | raiseErr m => intro h; exact absurd h (by simp [scrapeSiteAndStore, hl])
      | frame records =>
        simp only [scrapeSiteAndStore, hl]
        split
        · intro h; exact absurd h (by simp)
        · split
          · intro _; rfl
          · split
            · intro _; rfl
            · intro h; exact absurd h (by simp)

/-- Witness for C6: a resolved source whose adapter times out triggers
exactly once, and a successful store (schema with the matching unique
index) also triggers exactly once. -/
theorem scrapeSiteAndStore_webhook_amended_witness :
    (scrapeSiteAndStore [jobsConflictTarget] [("indeed", 1)] (some 30) none "indeed"
        AdapterOutcome.timeout 0 []).triggers = 1
    ∧ (scrapeSiteAndStore [jobsConflictTarget] [("indeed", 1)] (some 30) none "indeed"
        (.frame [[("job_url", RawVal.str "http://x")]]) 0 []).triggers = 1 :=
  ⟨(scrapeSiteAndStore_webhook_amended [jobsConflictTarget] [("indeed", 1)] (some 30) none
      "indeed" AdapterOutcome.timeout 0 []).2.1 rfl,
   (scrapeSiteAndStore_webhook_amended [jobsConflictTarget] [("indeed", 1)] (some 30) none
      "indeed" (.frame [[("job_url", RawVal.str "http://x")]]) 0 []).2.2.2.2.1 1 rfl⟩

/-! ### Retry-loop lemmas for the webhook sender -/

/-- A retriable attempt result advances the loop to the next attempt. -/
theorem webhookLoop_step_retriable (resp : Nat → HttpResult) (key : String)
    (maxRetries : Nat) (st : WebhookState) (a : Nat) (haM : a ≤ maxRetries)
    (hr : retriableResult (resp a) = true) :
    webhookLoop resp key maxRetries st a = webhookLoop resp key maxRetries st (a + 1) := by
  rw [webhookLoop]
  have hlt : ¬ maxRetries < a := by omega
  cases hresp : resp a with
  | status n =>
    have h5 : 500 ≤ n := by simpa [retriableResult, hresp] using hr
    have h1 : ¬ (200 ≤ n ∧ n < 300) := by omega
    have h2 : ¬ (n = 400 ∨ n = 401 ∨ n = 403) := by omega
    simp [hlt, hresp, h1, h2, h5]
  | timeoutErr => simp [hlt, hresp]
  | connErr => simp [hlt, hresp]
  | reqExc => simp [hlt, hresp]

/-- A run of retriable attempt results advances the loop across them. -/
theorem webhookLoop_skip (resp : Nat → HttpResult) (key : String)
    (maxRetries : Nat) (st : WebhookState) :
    ∀ (b a : Nat), a ≤ b → b ≤ maxRetries + 1 →
      (∀ i, a ≤ i → i < b → retriableResult (resp i) = true) →
      webhookLoop resp key maxRetries st a = webhookLoop resp key maxRetries st b := by
  intro b
  induction b with
  | zero =>
    intro a ha _ _
    have : a = 0 := Nat.le_zero.mp ha
    rw [this]
  | succ b ih =>
    intro a ha hbM hpre
    rcases Nat.lt_or_ge a (b + 1) with hlt | hge
    · have hab : a ≤ b := by omega
      calc webhookLoop resp key maxRetries st a
          = webhookLoop resp key maxRetries st b :=
            ih a hab (by omega) (fun i h1 h2 => hpre i h1 (by omega))
        _ = webhookLoop resp key maxRetries st (b + 1) :=
            webhookLoop_step_retriable resp key maxRetries st b (by omega)
              (hpre b hab (by omega))
    · have : a = b + 1 := by omega
      rw [this]

/-- A 2xx at the current attempt ends the loop in `sentOk`. -/
theorem webhookLoop_eval_success (resp : Nat → HttpResult) (key : String)
    (maxRetries : Nat) (st : WebhookState) (a n : Nat) (haM : a ≤ maxRetries)
    (hresp : resp a = .status n) (h2 : 200 ≤ n ∧ n < 300) :
    webhookLoop resp key maxRetries st a
      = ⟨⟨setAdd st.sent key, setDiscard st.inflight key⟩, .sentOk, a⟩ := by
  rw [webhookLoop]
  have hlt : ¬ maxRetries < a := by omega
  simp [hlt, hresp, h2]

/-- A non-2xx, non-5xx status at the current attempt ends the loop in
`permFail` (both the 400/401/403 branch and the any-other-status branch
of the code produce the same report). -/
theorem webhookLoop_eval_perm (resp : Nat → HttpResult) (key : String)
    (maxRetries : Nat) (st : WebhookState) (a n : Nat) (haM : a ≤ maxRetries)
    (hresp : resp a = .status n) (hn2 : ¬ (200 ≤ n ∧ n < 300)) (hn5 : n < 500) :
    webhookLoop resp key maxRetries st a
      = ⟨⟨st.sent, setDiscard st.inflight key⟩, .permFail, a⟩ := by
  rw [webhookLoop]
  have hlt : ¬ maxRetries < a := by omega
  have hn5' : ¬ 500 ≤ n := by omega
  by_cases h4 : n = 400 ∨ n = 401 ∨ n = 403
  · simp [hlt, hresp, hn2, h4]
  · simp [hlt, hresp, hn2, h4, hn5']

/-- Past the final attempt the loop reports an exhausted budget. -/
theorem webhookLoop_eval_exhausted (resp : Nat → HttpResult) (key : String)
    (maxRetries : Nat) (st : WebhookState) :
    webhookLoop resp key maxRetries st (maxRetries + 1)
      = ⟨⟨st.sent, setDiscard st.inflight key⟩, .exhausted, maxRetries⟩ := by
  rw [webhookLoop]
  simp

/-- An element is a member of `setAdd l k` iff it is `k` or in `l`. -/
theorem mem_setAdd (l : List String) (k x : String) :
    x ∈ setAdd l k ↔ x = k ∨ x ∈ l := by
  by_cases h : k ∈ l
  · simp only [setAdd, if_pos h]
    constructor
    · exact fun hx => Or.inr hx
    · rintro (rfl | hx)
      · exact h
      · exact hx
  · simp [setAdd, if_neg h]

/-- `k` is never a member of `setDiscard l k`. -/
theorem not_mem_setDiscard_self (l : List String) (k : String) :
    k ∉ setDiscard l k := by
  simp [setDiscard]

/-- C5. The retry policy of the webhook sender, for a configured sender on
a fresh key with budget M = max(1, WEBHOOK_MAX_RETRIES): a 2xx at attempt
N (after retriable results) terminates in `sentOk` with exactly N
attempts and the key marked sent; a permanent status (400/401/403 or any
other non-2xx, non-5xx class) at attempt N terminates in `permFail` with
exactly N attempts, the key not sent; and all-retriable results (5xx
statuses and network failures) exhaust the budget after exactly M
attempts, clearing the in-flight marker without setting sent. -/
theorem sendWebhook_retry_policy (s : Settings) (taskId source : String)
    (resp : Nat → HttpResult) (st : WebhookState) (N : Nat)
    (hg : ¬ s.goBackendUrl = "") (hi : ¬ s.internalToken = "")
    (hks : webhookKey taskId source ∉ st.sent)
    (hki : webhookKey taskId source ∉ st.inflight) :
    (1 ≤ N → N ≤ (max 1 s.webhookMaxRetries).toNat →
      (∀ i, i < N → 1 ≤ i → retriableResult (resp i) = true) →
      successStatus (resp N) = true →
      (sendScrapeCompletedWebhook s taskId source resp st).outcome = .sentOk
      ∧ (sendScrapeCompletedWebhook s taskId source resp st).attempts = N
      ∧ webhookKey taskId source ∈ (sendScrapeCompletedWebhook s taskId source resp st).state.sent
      ∧ webhookKey taskId source ∉ (sendScrapeCompletedWebhook s taskId source resp st).state.inflight)
    ∧ (1 ≤ N → N ≤ (max 1 s.webhookMaxRetries).toNat →
      (∀ i, i < N → 1 ≤ i → retriableResult (resp i) = true) →
      permanentStatus (resp N) = true →
      (sendScrapeCompletedWebhook s taskId source resp st).outcome = .permFail
      ∧ (sendScrapeCompletedWebhook s taskId source resp st).attempts = N
      ∧ webhookKey taskId source ∉ (sendScrapeCompletedWebhook s taskId source resp st).state.sent
      ∧ webhookKey taskId source ∉ (sendScrapeCompletedWebhook s taskId source resp st).state.inflight)
    ∧ ((∀ i, i < (max 1 s.webhookMaxRetries).toNat + 1 → 1 ≤ i →
          retriableResult (resp i) = true) →
      (sendScrapeCompletedWebhook s taskId source resp st).outcome = .exhausted
      ∧ (sendScrapeCompletedWebhook s taskId source resp st).attempts
          = (max 1 s.webhookMaxRetries).toNat
      ∧ webhookKey taskId source ∉ (sendScrapeCompletedWebhook s taskId source resp st).state.sent
      ∧ webhookKey taskId source ∉ (sendScrapeCompletedWebhook s taskId source resp st).state.inflight) := by
  have hsend : sendScrapeCompletedWebhook s taskId source resp st
      = webhookLoop resp (webhookKey taskId source) (max 1 s.webhookMaxRetries).toNat
          ⟨st.sent, setAdd st.inflight (webhookKey taskId source)⟩ 1 := by
    simp [sendScrapeCompletedWebhook, hg, hi, hks, hki]
  refine ⟨?_, ?_, ?_⟩
  · intro hN1 hNM hpre hsucc
    cases hr : resp N with
    | status n =>
      have h2 : 200 ≤ n ∧ n < 300 := by
        have := hsucc
        rw [hr] at this
        simpa [successStatus] using this
      rw [hsend,
        webhookLoop_skip resp (webhookKey taskId source) (max 1 s.webhookMaxRetries).toNat
          ⟨st.sent, setAdd st.inflight (webhookKey taskId source)⟩ N 1 hN1 (by omega)
          (fun i hi1 hi2 => hpre i hi2 hi1),
        webhookLoop_eval_success resp (webhookKey taskId source)
          (max 1 s.webhookMaxRetries).toNat _ N n hNM hr h2]
      refine ⟨rfl, rfl, ?_, ?_⟩
      · exact (mem_setAdd _ _ _).mpr (Or.inl rfl)
      · exact not_mem_setDiscard_self _ _
    | timeoutErr => rw [hr] at hsucc; simp [successStatus] at hsucc
    | connErr => rw [hr] at hsucc; simp [successStatus] at hsucc
    | reqExc => rw [hr] at hsucc; simp [successStatus] at hsucc
  · intro hN1 hNM hpre hperm
    cases hr : resp N with
    | status n =>
      have h2 : ¬ (200 ≤ n ∧ n < 300) ∧ n < 500 := by
        have := hperm
        rw [hr] at this
        simp only [permanentStatus, Bool.and_eq_true, Bool.not_eq_true',
          decide_eq_true_eq, decide_eq_false_iff_not, Bool.and_eq_false_iff] at this
        constructor
        · intro hcon
          rcases this.1 with h | h
          · exact absurd hcon.1 (by simpa using h)
          · exact absurd hcon.2 (by simpa using h)
        · exact this.2
      rw [hsend,
        webhookLoop_skip resp (webhookKey taskId source) (max 1 s.webhookMaxRetries).toNat
          ⟨st.sent, setAdd st.inflight (webhookKey taskId source)⟩ N 1 hN1 (by omega)
          (fun i hi1 hi2 => hpre i hi2 hi1),
        webhookLoop_eval_perm resp (webhookKey taskId source)
          (max 1 s.webhookMaxRetries).toNat _ N n hNM hr h2.1 h2.2]
      exact ⟨rfl, rfl, hks, not_mem_setDiscard_self _ _⟩
    | timeoutErr => rw [hr] at hperm; simp [permanentStatus] at hperm
    | connErr => rw [hr] at hperm; simp [permanentStatus] at hperm
    | reqExc => rw [hr] at hperm; simp [permanentStatus] at hperm
  · intro hpre
    rw [hsend,
      webhookLoop_skip resp (webhookKey taskId source) (max 1 s.webhookMaxRetries).toNat
        ⟨st.sent, setAdd st.inflight (webhookKey taskId source)⟩
        ((max 1 s.webhookMaxRetries).toNat + 1) 1 (by omega) (by omega)
        (fun i hi1 hi2 => hpre i hi2 hi1),
      webhookLoop_eval_exhausted]
    exact ⟨rfl, rfl, hks, not_mem_setDiscard_self _ _⟩

/-- Witness for C5: 503 on attempts 1-2 and 200 on attempt 3 yields
`sentOk` after exactly 3 attempts; an always-401 notifier yields
`permFail` after exactly 1 attempt. Budget is the default
WEBHOOK_MAX_RETRIES = 5. -/
theorem sendWebhook_retry_policy_witness :
    ((sendScrapeCompletedWebhook (configSettings "" "http://b" "tok" 50 120 5 5) "t1"
        "indeed" (fun i => if i < 3 then .status 503 else .status 200) ⟨[], []⟩).outcome
      = .sentOk
     ∧ (sendScrapeCompletedWebhook (configSettings "" "http://b" "tok" 50 120 5 5) "t1"
        "indeed" (fun i => if i < 3 then .status 503 else .status 200) ⟨[], []⟩).attempts = 3)
    ∧ ((sendScrapeCompletedWebhook (configSettings "" "http://b" "tok" 50 120 5 5) "t2"
        "indeed" (fun _ => .status 401) ⟨[], []⟩).outcome = .permFail
     ∧ (sendScrapeCompletedWebhook (configSettings "" "http://b" "tok" 50 120 5 5) "t2"
        "indeed" (fun _ => .status 401) ⟨[], []⟩).attempts = 1) := by
  have h1 := (sendWebhook_retry_policy (configSettings "" "http://b" "tok" 50 120 5 5) "t1"
    "indeed" (fun i => if i < 3 then .status 503 else .status 200) ⟨[], []⟩ 3
    (by decide) (by decide) (by simp) (by simp)).1
    (by decide) (by decide) (by decide) (by decide)
  have h2 := (sendWebhook_retry_policy (configSettings "" "http://b" "tok" 50 120 5 5) "t2"
    "indeed" (fun _ => .status 401) ⟨[], []⟩ 1
    (by decide) (by decide) (by simp) (by simp)).2.1
    (by decide) (by decide) (by decide) (by decide)
  exact ⟨⟨h1.1, h1.2.1⟩, ⟨h2.1, h2.2.1⟩⟩

/-! ### Dedup-automaton lemmas for the webhook notifier -/

/-- Membership in `setDiscard`. -/
theorem mem_setDiscard (l : List String) (k x : String) :
    x ∈ setDiscard l k ↔ x ∈ l ∧ x ≠ k := by
  simp [setDiscard]

/-- A non-started prefix contributes nothing to the log. -/
theorem whPrefix_false (e : WhEvent) (l : List String) :
    (if (false : Bool) then [whEventKey e] else []) ++ l = l := rfl

/-- A started prefix contributes the event's key to the log. -/
theorem whPrefix_true (e : WhEvent) (l : List String) :
    (if (true : Bool) then [whEventKey e] else []) ++ l = whEventKey e :: l := rfl

/-- Inversion of a successful `whRun` on a cons. -/
theorem whRun_cons_inv (st : WebhookState) (e : WhEvent) (es : List WhEvent)
    (stf : WebhookState) (log : List String)
    (h : whRun st (e :: es) = some (stf, log)) :
    ∃ st1 b log1, whStep st e = some (st1, b) ∧ whRun st1 es = some (stf, log1)
      ∧ log = (if b then [whEventKey e] else []) ++ log1 := by
  simp only [whRun] at h
  cases hstep : whStep st e with
  | none => rw [hstep] at h; simp at h
  | some p =>
    rw [hstep, Option.some_bind] at h
    cases hrun : whRun p.1 es with
    | none => rw [hrun] at h; simp at h
    | some q =>
      rw [hrun, Option.map_some'] at h
      simp only [Option.some.injEq, Prod.mk.injEq] at h
      exact ⟨p.1, p.2, q.2, rfl, by rw [hrun, ← h.1], h.2.symm⟩

/-- Inversion of a `req` step. -/
theorem whStep_req_inv (st : WebhookState) (k : String) (st1 : WebhookState)
    (b : Bool) (h : whStep st (.req k) = some (st1, b)) :
    (b = false ∧ st1 = st ∧ (k ∈ st.sent ∨ k ∈ st.inflight))
    ∨ (b = true ∧ st1 = ⟨st.sent, setAdd st.inflight k⟩ ∧ k ∉ st.sent ∧ k ∉ st.inflight) := by
  by_cases h1 : k ∈ st.sent
  · simp only [whStep, if_pos h1, Option.some.injEq, Prod.mk.injEq] at h
    exact Or.inl ⟨h.2.symm, h.1.symm, Or.inl h1⟩
  · by_cases h2 : k ∈ st.inflight
    · simp only [whStep, if_neg h1, if_pos h2, Option.some.injEq, Prod.mk.injEq] at h
      exact Or.inl ⟨h.2.symm, h.1.symm, Or.inr h2⟩
    · simp only [whStep, if_neg h1, if_neg h2, Option.some.injEq, Prod.mk.injEq] at h
      exact Or.inr ⟨h.2.symm, h.1.symm, h1, h2⟩

/-- Inversion of a `finishOk` step. -/
theorem whStep_finishOk_inv (st : WebhookState) (k : String) (st1 : WebhookState)
    (b : Bool) (h : whStep st (.finishOk k) = some (st1, b)) :
    b = false ∧ k ∈ st.inflight ∧ st1 = ⟨setAdd st.sent k, setDiscard st.inflight k⟩ := by
  by_cases h1 : k ∈ st.inflight
  · simp only [whStep, if_pos h1, Option.some.injEq, Prod.mk.injEq] at h
    exact ⟨h.2.symm, h1, h.1.symm⟩
  · simp only [whStep, if_neg h1] at h
    exact absurd h (by simp)

/-- Inversion of a `finishFail` step. -/
theorem whStep_finishFail_inv (st : WebhookState) (k : String) (st1 : WebhookState)
    (b : Bool) (h : whStep st (.finishFail k) = some (st1, b)) :
    b = false ∧ k ∈ st.inflight ∧ st1 = ⟨st.sent, setDiscard st.inflight k⟩ := by
  by_cases h1 : k ∈ st.inflight
  · simp only [whStep, if_pos h1, Option.some.injEq, Prod.mk.injEq] at h
    exact ⟨h.2.symm, h1, h.1.symm⟩
  · simp only [whStep, if_neg h1] at h
    exact absurd h (by simp)

/-- Started-sequence bound: along any valid event run, the number of
delivery attempt sequences started for a key is at most the number of
non-success finishes for that key, plus one more when the key starts
outside both dedup sets. -/
theorem whRun_start_bound (k : String) :
    ∀ (evs : List WhEvent) (st stf : WebhookState) (log : List String),
      whRun st evs = some (stf, log) →
      log.count k ≤ evs.count (WhEvent.finishFail k)
        + (if k ∈ st.inflight ∨ k ∈ st.sent then 0 else 1) := by
  intro evs
  induction evs with
  | nil =>
    intro st stf log h
    simp only [whRun, Option.some.injEq, Prod.mk.injEq] at h
    rw [← h.2]
    simp
  | cons e es ih =>
    intro st stf log h
    obtain ⟨st1, b, log1, hstep, hrun, rfl⟩ := whRun_cons_inv st e es stf log h
    have hih := ih st1 stf log1 hrun
    cases e with
    | req k1 =>
      have hcntf : (WhEvent.req k1 :: es).count (WhEvent.finishFail k)
          = es.count (WhEvent.finishFail k) := by
        simp [List.count_cons]
      rcases whStep_req_inv st k1 st1 b hstep with ⟨rfl, rfl, hmem⟩ | ⟨rfl, rfl, hns, hni⟩
      · rw [whPrefix_false, hcntf]
        exact hih
      · rw [whPrefix_true, hcntf]
        dsimp only at hih
        by_cases hk : k1 = k
        · subst hk
          have hb1 : k1 ∈ setAdd st.inflight k1 ∨ k1 ∈ st.sent :=
            Or.inl ((mem_setAdd _ _ _).mpr (Or.inl rfl))
          rw [if_pos hb1] at hih
          have hb0 : ¬ (k1 ∈ st.inflight ∨ k1 ∈ st.sent) := by
            rintro (hc | hc)
            · exact hni hc
            · exact hns hc
          rw [if_neg hb0]
          have hcc : (whEventKey (WhEvent.req k1) :: log1).count k1 = log1.count k1 + 1 := by
            simp [whEventKey, List.count_cons]
          rw [hcc]
          omega
        · have hne : ¬ k = k1 := fun hh => hk hh.symm
          have hmem1 : (k ∈ setAdd st.inflight k1 ∨ k ∈ st.sent)
              ↔ (k ∈ st.inflight ∨ k ∈ st.sent) := by
            simp [mem_setAdd, hne]
          have hcc : (whEventKey (WhEvent.req k1) :: log1).count k = log1.count k := by
            simp [whEventKey, List.count_cons, hk]
          rw [hcc]
          by_cases hb : k ∈ st.inflight ∨ k ∈ st.sent
          · rw [if_pos hb]
            rw [if_pos (hmem1.mpr hb)] at hih
            exact hih
          · rw [if_neg hb]
            rw [if_neg (fun hc => hb (hmem1.mp hc))] at hih
            exact hih
    | finishOk k1 =>
      obtain ⟨rfl, hmem, rfl⟩ := whStep_finishOk_inv st k1 st1 b hstep
      rw [whPrefix_false]
      have hcntf : (WhEvent.finishOk k1 :: es).count (WhEvent.finishFail k)
          = es.count (WhEvent.finishFail k) := by
        simp [List.count_cons]
      rw [hcntf]
      dsimp only at hih
      have hbonus : (if k ∈ setDiscard st.inflight k1 ∨ k ∈ setAdd st.sent k1
            then (0 : Nat) else 1)
          ≤ (if k ∈ st.inflight ∨ k ∈ st.sent then (0 : Nat) else 1) := by
        by_cases hb : k ∈ st.inflight ∨ k ∈ st.sent
        · rw [if_pos hb]
          by_cases hk : k = k1
          · subst hk
            rw [if_pos (Or.inr ((mem_setAdd _ _ _).mpr (Or.inl rfl)))]
          · rcases hb with hb | hb
            · rw [if_pos (Or.inl ((mem_setDiscard _ _ _).mpr ⟨hb, hk⟩))]
            · rw [if_pos (Or.inr ((mem_setAdd _ _ _).mpr (Or.inr hb)))]
        · rw [if_neg hb]
          split <;> omega
      omega
    | finishFail k1 =>
      obtain ⟨rfl, hmem, rfl⟩ := whStep_finishFail_inv st k1 st1 b hstep
      rw [whPrefix_false]
      dsimp only at hih
      by_cases hk : k1 = k
      · subst hk
        have hcntf : (WhEvent.finishFail k1 :: es).count (WhEvent.finishFail k1)
            = es.count (WhEvent.finishFail k1) + 1 := by
          simp [List.count_cons]
        have hb0 : (if k1 ∈ st.inflight ∨ k1 ∈ st.sent then (0 : Nat) else 1) = 0 :=
          if_pos (Or.inl hmem)
        have hb1 : (if k1 ∈ setDiscard st.inflight k1 ∨ k1 ∈ st.sent
            then (0 : Nat) else 1) ≤ 1 := by
          split <;> omega
        rw [hcntf, hb0]
        omega
      · have hcntf : (WhEvent.finishFail k1 :: es).count (WhEvent.finishFail k)
            = es.count (WhEvent.finishFail k) := by
          simp [List.count_cons, hk]
        have hmem1 : (k ∈ setDiscard st.inflight k1 ∨ k ∈ st.sent)
            ↔ (k ∈ st.inflight ∨ k ∈ st.sent) := by
          simp only [mem_setDiscard]
          constructor
          · rintro (hm | hm)
            · exact Or.inl hm.1
            · exact Or.inr hm
          · rintro (hm | hm)
            · exact Or.inl ⟨hm, fun hh => hk hh.symm⟩
            · exact Or.inr hm
        rw [hcntf]
        by_cases hb : k ∈ st.inflight ∨ k ∈ st.sent
        · rw [if_pos hb]
          rw [if_pos (hmem1.mpr hb)] at hih
          exact hih
        · rw [if_neg hb]
          rw [if_neg (fun hc => hb (hmem1.mp hc))] at hih
          exact hih

/-- Once a key is in the sent set, no later event ever starts another
delivery attempt sequence for it and the key stays sent. -/
theorem whRun_sent_permanent (k : String) :
    ∀ (evs : List WhEvent) (st stf : WebhookState) (log : List String),
      k ∈ st.sent → whRun st evs = some (stf, log) →
      log.count k = 0 ∧ k ∈ stf.sent := by
  intro evs
  induction evs with
  | nil =>
    intro st stf log hk h
    simp only [whRun, Option.some.injEq, Prod.mk.injEq] at h
    rw [← h.2, ← h.1]
    exact ⟨by simp, hk⟩
  | cons e es ih =>
    intro st stf log hk h
    obtain ⟨st1, b, log1, hstep, hrun, rfl⟩ := whRun_cons_inv st e es stf log h
    cases e with
    | req k1 =>
      rcases whStep_req_inv st k1 st1 b hstep with ⟨rfl, rfl, _⟩ | ⟨rfl, rfl, hns, _⟩
      · rw [whPrefix_false]
        exact ih _ stf log1 hk hrun
      · have hne : k1 ≠ k := fun hh => hns (hh ▸ hk)
        have hihr := ih ⟨st.sent, setAdd st.inflight k1⟩ stf log1 hk hrun
        rw [whPrefix_true]
        have hcc : (whEventKey (WhEvent.req k1) :: log1).count k = log1.count k := by
          simp [whEventKey, List.count_cons, hne]
        rw [hcc]
        exact hihr
    | finishOk k1 =>
      obtain ⟨rfl, hmem, rfl⟩ := whStep_finishOk_inv st k1 st1 b hstep
      have hk1 : k ∈ setAdd st.sent k1 := (mem_setAdd _ _ _).mpr (Or.inr hk)
      rw [whPrefix_false]
      exact ih ⟨setAdd st.sent k1, setDiscard st.inflight k1⟩ stf log1 hk1 hrun
    | finishFail k1 =>
      obtain ⟨rfl, hmem, rfl⟩ := whStep_finishFail_inv st k1 st1 b hstep
      rw [whPrefix_false]
      exact ih ⟨st.sent, setDiscard st.inflight k1⟩ stf log1 hk hrun

/-- C4 counterexample. The claim concludes that at most one delivery
attempt sequence is ever started per (task, source) key within a process
lifetime. But a sequence that ends in permanent failure removes the key
from in-flight without marking it sent (webhook.py lines 104-105,
157-158), so a later send request for the same key starts a second
sequence: the valid run req-a, finishFail-a, req-a starts two sequences
for key "a". -/
theorem whRun_two_sequences_counterexample :
    whRun ⟨[], []⟩ [WhEvent.req "a", WhEvent.finishFail "a", WhEvent.req "a"]
      = some (⟨[], ["a"]⟩, ["a", "a"])
    ∧ ¬ ((["a", "a"] : List String).count "a" ≤ 1) := by
  constructor
  · rfl
  · decide

/-- C4 as it holds on the code. A send request for a key already in the
sent set or the in-flight set is dropped immediately under the lock with
no state change; consequently, along any valid run, at most one sequence
per key can be started beyond the number of its non-success finishes (so
at most one is in flight at a time), and after a successful send no
sequence is ever started for that key again. -/
theorem whRun_dedup_amended :
    (∀ (st : WebhookState) (k : String), k ∈ st.sent ∨ k ∈ st.inflight →
      whStep st (.req k) = some (st, false))
    ∧ (∀ (evs : List WhEvent) (stf : WebhookState) (log : List String) (k : String),
        whRun ⟨[], []⟩ evs = some (stf, log) →
        log.count k ≤ 1 + evs.count (WhEvent.finishFail k))
    ∧ (∀ (st : WebhookState) (evs : List WhEvent) (stf : WebhookState)
        (log : List String) (k : String),
        k ∈ st.sent → whRun st evs = some (stf, log) →
        log.count k = 0 ∧ k ∈ stf.sent) := by
  refine ⟨?_, ?_, ?_⟩
  · intro st k hk
    rcases hk with hk | hk
    · simp [whStep, hk]
    · by_cases hs : k ∈ st.sent <;> simp [whStep, hs, hk]
  · intro evs stf log k h
    have := whRun_start_bound k evs ⟨[], []⟩ stf log h
    simp at this
    omega
  · exact fun st evs stf log k hk h => whRun_sent_permanent k evs st stf log hk h

/-- Witness for C4: a request for an already-sent key is dropped with no
state change, a single-request run starts at most one sequence, and a run
from a sent key starts none. -/
theorem whRun_dedup_amended_witness :
    whStep ⟨["t1:indeed"], []⟩ (.req "t1:indeed") = some (⟨["t1:indeed"], []⟩, false)
    ∧ (["t1:indeed"] : List String).count "t1:indeed"
        ≤ 1 + ([WhEvent.req "t1:indeed"].count (WhEvent.finishFail "t1:indeed"))
    ∧ (([] : List String).count "t1:indeed" = 0
        ∧ "t1:indeed" ∈ (⟨["t1:indeed"], []⟩ : WebhookState).sent) := by
  refine ⟨whRun_dedup_amended.1 ⟨["t1:indeed"], []⟩ "t1:indeed" (Or.inl (by simp)), ?_, ?_⟩
  · exact whRun_dedup_amended.2.1 [WhEvent.req "t1:indeed"] ⟨[], ["t1:indeed"]⟩
      ["t1:indeed"] "t1:indeed" (by rfl)
  · exact whRun_dedup_amended.2.2 ⟨["t1:indeed"], []⟩ [WhEvent.req "t1:indeed"]
      ⟨["t1:indeed"], []⟩ [] "t1:indeed" (by simp) (by rfl)

end SkillSync
